import Mathlib

/-!
Shallow embedding of the CalmaLink deterministic chat backend.

Sources embedded here:
- src/api/chat.js — the deterministic handler (keyword tables, inferLanguage,
  wantsMeditation, wantsLibrary, wantsHelp, isCrisis, sendMeditation, handler).
- src/api/chat_v2.js (second revision in the file, lines 182-399) — adds
  wantsTalkOnly and the variant-based supportiveReply.
- src/unnamed/part_000 (api/chat_v3.js) — the quickIntent pre-filter.
- src/unnamed/part_001 (an earlier api/chat.js revision) — its HTTP method gate.

Machine-facing notes on the embedding:
- JS strings are Lean String; message contents are modelled as always being
  strings (the JS code filters out non-string contents when locating the last
  user turn, and no claim exercises a non-string content).
- text.includes(k) is substring containment, embedded as jsIncludes below.
- toLowerCase is embedded as an ASCII case map (every keyword in the tables
  that carries an accent is already lower case, and all inputs exercised by the
  claims are ASCII or already lower case, so the two agree on everything
  examined here).
- The JSON body with a missing or non-array messages field is modelled as
  Body.messages = none; the handler replaces it with the empty history,
  mirroring `Array.isArray(body?.messages) ? body.messages : []`.
-/

set_option maxRecDepth 100000

namespace CalmaLink

/-- A conversation turn: `{ role, content }`. -/
structure Msg where
  role : String
  content : String
deriving DecidableEq

/-- One practice record of the MEDITATIONS catalog. -/
structure Practice where
  title : String
  duration : Nat
  audioUrl : String
  script : String
deriving DecidableEq

/-- One language level of the MEDITATIONS catalog: `{ calm_breath: ... }`.
The field is an Option so the `lib.calm_breath || MEDITATIONS.en.calm_breath`
fallback of the source is representable. -/
structure LangLib where
  calm_breath : Option Practice
deriving DecidableEq

/-- The `tool.result` payload built by sendMeditation. -/
structure ToolResult where
  title : String
  language : String
  duration : Nat
  audioUrl : String
  script : String
deriving DecidableEq

/-- The `tool` field: `{ name, result }`. -/
structure ToolPayload where
  name : String
  result : ToolResult
deriving DecidableEq

/-- The response envelope `{ message, tool? }`. -/
structure Envelope where
  message : String
  tool : Option ToolPayload
deriving DecidableEq

/-- An HTTP response: `res.status(s).end()` or `res.status(s).json(body)`. -/
inductive HttpOut where
  | empty (status : Nat)
  | json (status : Nat) (body : Envelope)
deriving DecidableEq

/-- The parsed POST body; `messages := none` models a missing or non-array
`messages` field. -/
structure Body where
  messages : Option (List Msg)
deriving DecidableEq

/-- The intent variants named by the spec (§3). -/
inductive Intent where
  | crisis
  | libraryRequest
  | helpRequest
  | declineOrTalkOnly
  | startPractice
  | unclassified
deriving DecidableEq

-- ---------------- JS string primitives ----------------

/-- charsPrefix pat l: pat is a leading segment of l. -/
def charsPrefix : List Char → List Char → Bool
  | [], _ => true
  | _ :: _, [] => false
  | a :: as, b :: bs => a == b && charsPrefix as bs

/-- charsContains pat l: pat occurs contiguously somewhere in l. -/
def charsContains (pat : List Char) : List Char → Bool
  | [] => pat.isEmpty
  | b :: bs => charsPrefix pat (b :: bs) || charsContains pat bs

/-- JS `text.includes(pat)`. -/
def jsIncludes (text pat : String) : Bool :=
  charsContains pat.data text.data

/-- JS `s.toLowerCase()` on the character range used by the keyword tables. -/
def jsToLower (s : String) : String :=
  String.mk (s.data.map Char.toLower)

/-- JS `s.trim()`. -/
def jsTrim (s : String) : String :=
  String.mk (((s.data.dropWhile Char.isWhitespace).reverse.dropWhile Char.isWhitespace).reverse)

/-- chat.js `norm(s)`: lowercase then trim. -/
def norm (s : String) : String := jsTrim (jsToLower s)

/-- chat.js `includesAny(text, arr)`. -/
def includesAny (text : String) (arr : List String) : Bool :=
  arr.any (fun k => jsIncludes text k)

-- ---------------- static catalog (chat.js lines 19-42) ----------------

def AUDIO_EN : String := "https://calmalink-api-fresh.vercel.app/calmbreathenglish.mp3"

def AUDIO_ES : String := "https://calmalink-api-fresh.vercel.app/spanishcalmbreath.mp3"

def calmBreathEn : Practice :=
  { title := "Calm Breath • 3 min"
    duration := 3
    audioUrl := AUDIO_EN
    script := "Sit comfortably. Inhale 4, exhale 6. With each exhale, soften your shoulders and jaw. If thoughts arise, place them on a cloud and let them drift by. Return to your breath: inhale for 4, exhale for 6. When you’re ready, open your eyes and carry this calm with you." }

def calmBreathEs : Practice :=
  { title := "Respiración Calma • 3 min"
    duration := 3
    audioUrl := AUDIO_ES
    script := "Siéntate con comodidad. Inhala 4, exhala 6. Con cada exhalación, suaviza hombros y mandíbula. Si surgen pensamientos, colócalos sobre una nube y déjalos pasar. Regresa a la respiración: inhala 4, exhala 6. Cuando estés listo, abre los ojos y lleva contigo esta calma." }

/-- The MEDITATIONS object, as a lookup by language key. -/
def MEDITATIONS (lang : String) : Option LangLib :=
  if lang = "en" then some { calm_breath := some calmBreathEn }
  else if lang = "es" then some { calm_breath := some calmBreathEs }
  else none

-- ---------------- keyword tables (chat.js lines 71-80) ----------------

def YES_EN : List String :=
  ["yes","yeah","yep","ok","okay","sure","go ahead","lets do it","let\x27s do it","please","do it","start it","begin"]

def YES_ES : List String :=
  ["sí","si","dale","va","claro","por favor","hazlo","empecemos","empieza","inicia"]

def START_EN : List String :=
  ["calm breath","calm_breath","play","listen","start","begin","audio","track","meditation","meditate","breathe","breathing"]

def START_ES : List String :=
  ["respiración calma","respiracion calma","reproduce","escuchar","iniciar","empezar","pista","meditación","meditacion","respira","respiración","respiracion"]

def LANG_EN_ONLY : List String := ["english","inglés","ingles","en"]

def LANG_ES_ONLY : List String := ["spanish","español","espanol","es"]

def LIBRARY_TRIGGERS : List String :=
  ["library","catalog","list","what do you have","what meditations","qué tienes","biblioteca","lista"]

def HELP_TRIGGERS : List String :=
  ["help","how to","ayuda","como uso","¿cómo uso?","instructions"]

def CRISIS_EN : List String :=
  ["kill myself","suicide","want to die","hurt myself","harm myself","overdose","self harm","self-harm","end my life"]

def CRISIS_ES : List String :=
  ["suicidio","matarme","quiero morir","hacerme daño","dañarme","autolesion","autolesión","sobredosis","quitarme la vida"]

-- ---------------- chat.js classifier helpers ----------------

/-- The last turn with role user: `[...messages].reverse().find(m => m.role === "user" && typeof m.content === "string")`.
chat.js, chat_v2.js and chat_v3 all repeat this expression verbatim. -/
def lastUserMsg (messages : List Msg) : Option Msg :=
  messages.reverse.find? (fun m => m.role == "user")

/-- chat.js inferLanguage (lines 86-91): scan the last five turns, keeping
only user contents, join with spaces, lowercase, and look for indicative
vocabulary. Identical in chat_v2.js. -/
def inferLanguage (messages : List Msg) : String :=
  let text := jsToLower (String.intercalate " "
    ((messages.drop (messages.length - 5)).map (fun m => if m.role == "user" then m.content else "")))
  if includesAny text ["español","espanol","meditación","meditacion","respiración","respiracion","reproduce","escuchar","pista"] then "es"
  else if includesAny text ["english"] then "en"
  else "en"

/-- The `{ want, lang }` record returned by wantsMeditation. -/
structure Decision where
  want : Bool
  lang : Option String
deriving DecidableEq

/-- chat.js wantsMeditation (lines 94-120); the chat_v2.js copy (lines
298-318) is word-for-word the same logic. -/
def wantsMeditation (messages : List Msg) : Decision :=
  match lastUserMsg messages with
  | none => { want := false, lang := none }
  | some lastUser =>
    let t := norm lastUser.content
    if LANG_EN_ONLY.contains t then { want := true, lang := some "en" }
    else if LANG_ES_ONLY.contains t then { want := true, lang := some "es" }
    else
      let saidYes := includesAny t (YES_EN ++ YES_ES)
      let saidStart := includesAny t (START_EN ++ START_ES)
      if saidYes || saidStart then { want := true, lang := none }
      else
        match messages.reverse.find? (fun m => m.role == "assistant") with
        | some prevAssistant =>
          if jsIncludes (jsToLower prevAssistant.content) "we currently offer a calm breath" && saidYes then
            { want := true, lang := none }
          else { want := false, lang := none }
        | none => { want := false, lang := none }

/-- chat.js wantsLibrary (lines 122-126). -/
def wantsLibrary (messages : List Msg) : Bool :=
  match lastUserMsg messages with
  | none => false
  | some u => includesAny (norm u.content) LIBRARY_TRIGGERS

/-- chat.js wantsHelp (lines 128-132). -/
def wantsHelp (messages : List Msg) : Bool :=
  match lastUserMsg messages with
  | none => false
  | some u => includesAny (norm u.content) HELP_TRIGGERS

/-- chat.js isCrisis (lines 134-139). -/
def isCrisis (messages : List Msg) : Bool :=
  match lastUserMsg messages with
  | none => false
  | some u => includesAny (norm u.content) CRISIS_EN || includesAny (norm u.content) CRISIS_ES

-- ---------------- chat.js response composer ----------------

/-- chat.js supportiveReply (lines 142-147): the default reply, ending with an
invitation to the practice. -/
def supportiveReply (lang : String) : String :=
  if lang = "es" then
    "Gracias por compartir. Estoy aquí contigo—un paso a la vez. ¿Quieres hacer una Respiración Calma de 3 minutos ahora? Di “español” o “english” para elegir idioma."
  else
    "Thanks for sharing. I’m here with you—one step at a time. Want to do a 3-minute Calm Breath now? Say “english” or “español” to choose language."

/-- chat.js libraryReply (lines 149-154); identical in chat_v2.js. -/
def libraryReply (lang : String) : String :=
  if lang = "es" then
    "Biblioteca actual:\n• Respiración Calma (3 min) — Español e Inglés\nMás meditaciones llegarán pronto."
  else
    "Current library:\n• Calm Breath (3 min) — English & Spanish\nMore meditations are coming soon."

/-- chat.js helpReply (lines 156-161). -/
def helpReply (lang : String) : String :=
  if lang = "es" then
    "Puedes decir: “español” o “english” • “reproduce la meditación” • “escuchar la pista” • “lista de meditaciones”. Si necesitas ayuda urgente, llama al 911 o al 988 en EE. UU."
  else
    "You can say: “english” or “español” • “play the meditation” • “listen to the track” • “show library”. If you need urgent help, call 911 or 988 (U.S.)."

/-- chat.js crisisReply (lines 181-186). -/
def crisisReply (lang : String) : String :=
  if lang = "es" then
    "Siento que estés pasando por esto. No puedo ofrecer ayuda de crisis, pero quiero que obtengas apoyo inmediato. En EE. UU., llama o envía un texto al 988 (Línea de Vida), o llama al 911 si es una emergencia. Si estás fuera de EE. UU., usa tu número local de emergencias."
  else
    "I’m really sorry you’re going through this. I can’t provide crisis support here, but I want you to get immediate help. In the U.S., call or text 988 (Suicide & Crisis Lifeline), or call 911 if this is an emergency. If you’re outside the U.S., use your local emergency number."

/-- chat.js sendMeditation (lines 164-178): catalog lookup with double
fallback to the English entry, then the envelope with the get_meditation tool
payload. Identical in chat_v2.js (lines 352-366). -/
def sendMeditation (lang : String) : Envelope :=
  let lib := match MEDITATIONS lang with
    | some l => l
    | none => { calm_breath := some calmBreathEn }
  let med := match lib.calm_breath with
    | some m => m
    | none => calmBreathEn
  let intro := if lang = "es" then "Aquí tienes tu práctica de Respiración Calma." else "Here is your Calm Breath practice."
  { message := intro
    tool := some { name := "get_meditation"
                   result := { title := med.title
                               language := lang
                               duration := med.duration
                               audioUrl := med.audioUrl
                               script := med.script } } }

-- ---------------- chat.js handler ----------------

/-- The deterministic body of the chat.js handler (lines 198-225), applied to
the already-extracted messages array. -/
def chatRespond (messages : List Msg) : Envelope :=
  let lang := inferLanguage messages
  if isCrisis messages then { message := crisisReply lang, tool := none }
  else if wantsLibrary messages then { message := libraryReply lang, tool := none }
  else if wantsHelp messages then { message := helpReply lang, tool := none }
  else
    let decision := wantsMeditation messages
    if decision.want then sendMeditation (decision.lang.getD lang)
    else { message := supportiveReply lang, tool := none }

/-- The chat.js handler (lines 189-225): OPTIONS pre-flight, the non-POST 405
gate, then the deterministic response on the extracted messages. The invalid
JSON 400 path (line 196) is not modelled; a missing or non-array messages
field is Body.messages = none (line 198). -/
def chatHandler (method : String) (body : Body) : HttpOut :=
  if method = "OPTIONS" then HttpOut.empty 200
  else if method ≠ "POST" then
    HttpOut.json 405 { message := "Use POST to chat. / Usa POST para chatear.", tool := none }
  else HttpOut.json 200 (chatRespond (body.messages.getD []))

/-- The spec §4.1 intent of a history under chat.js: reading the selected
intent off the branch the handler takes, in the handler order. chat.js has no
decline branch. -/
def classifyChat (messages : List Msg) : Intent :=
  if isCrisis messages then Intent.crisis
  else if wantsLibrary messages then Intent.libraryRequest
  else if wantsHelp messages then Intent.helpRequest
  else if (wantsMeditation messages).want then Intent.startPractice
  else Intent.unclassified

-- ---------------- chat_v2.js, second revision (lines 182-399) ----------------

/-- chat_v2.js TALK_EN (line 263). -/
def TALK_EN : List String :=
  ["just talk","i want to talk","can we talk","let\x27s talk","lets talk","talk to me","chat with me","i want to chat","just chat","no meditation","no meditations","not now","later","maybe later","skip","stop","cancel","pause","no thanks","no thank you","don\x27t want","dont want"]

/-- chat_v2.js TALK_ES (line 264). -/
def TALK_ES : List String :=
  ["solo hablar","quiero hablar","podemos hablar","hablemos","platiquemos","charlemos","quiero charlar","solo chatear","sin meditación","sin meditacion","no meditación","no meditacion","no ahora","más tarde","mas tarde","quizás luego","quizas luego","omitir","detener","cancelar","pausa","no gracias","no quiero"]

/-- chat_v2.js wantsTalkOnly (lines 290-295). -/
def wantsTalkOnly (messages : List Msg) : Bool :=
  match lastUserMsg messages with
  | none => false
  | some u => includesAny (norm u.content) (TALK_EN ++ TALK_ES)

/-- chat_v2.js supportiveReply variants_en (lines 323-327). -/
def variantsEn : List String :=
  ["Thanks for sharing. I’m here with you. What’s on your mind?",
   "I hear you. That sounds like a lot. Want to tell me a bit more?",
   "You’re not alone. What part feels heaviest right now?"]

/-- chat_v2.js supportiveReply variants_es (lines 328-332). -/
def variantsEs : List String :=
  ["Gracias por compartir. Estoy aquí contigo. ¿Qué tienes en mente?",
   "Te escucho. Suena como mucho. ¿Quieres contarme un poco más?",
   "No estás solo/a. ¿Qué parte se siente más pesada ahora?"]

/-- chat_v2.js supportiveReply (lines 321-335): a variant chosen by the count
of user turns; `v[count % v.length]` is always in range, so the default of
getD is never used. -/
def supportiveReplyV2 (messages : List Msg) (lang : String) : String :=
  let count := (messages.filter (fun m => m.role == "user")).length
  let v := if lang = "es" then variantsEs else variantsEn
  v.getD (count % v.length) ""

/-- chat_v2.js helpReply (lines 342-345). -/
def helpReplyV2 (lang : String) : String :=
  if lang = "es" then
    "Puedes decir: “solo hablar” si no quieres meditar • “español” o “english” para elegir idioma • “reproduce la meditación” para empezar • “lista de meditaciones” para ver opciones. Si necesitas ayuda urgente, llama al 911 o al 988 en EE. UU."
  else
    "You can say: “just talk” if you don’t want to meditate • “english” or “español” to pick a language • “play the meditation” to start • “show library” to see options. If you need urgent help, call 911 or 988 (U.S.)."

/-- chat_v2.js crisisReply (lines 347-350). -/
def crisisReplyV2 (lang : String) : String :=
  if lang = "es" then
    "Siento que estés pasando por esto. En EE. UU., llama o envía un texto al 988 (Línea de Vida), o llama al 911 si es una emergencia. Si estás fuera de EE. UU., usa tu número local de emergencias."
  else
    "I’m really sorry you’re going through this. In the U.S., call or text 988 (Suicide & Crisis Lifeline), or call 911 if this is an emergency. If you’re outside the U.S., use your local emergency number."

/-- The deterministic body of the chat_v2.js second-revision handler (lines
378-399): crisis, library, help, talk-only/decline, start, default. Its
inferLanguage, wantsLibrary, wantsHelp, isCrisis, wantsMeditation and
sendMeditation are word-for-word those of chat.js and are shared above. -/
def chatV2Respond (messages : List Msg) : Envelope :=
  let lang := inferLanguage messages
  if isCrisis messages then { message := crisisReplyV2 lang, tool := none }
  else if wantsLibrary messages then { message := libraryReply lang, tool := none }
  else if wantsHelp messages then { message := helpReplyV2 lang, tool := none }
  else if wantsTalkOnly messages then { message := supportiveReplyV2 messages lang, tool := none }
  else
    let decision := wantsMeditation messages
    if decision.want then sendMeditation (decision.lang.getD lang)
    else { message := supportiveReplyV2 messages lang, tool := none }

/-- The spec §4.1 intent of a history under the chat_v2.js second revision,
read off the branch its handler takes. -/
def classifyV2 (messages : List Msg) : Intent :=
  if isCrisis messages then Intent.crisis
  else if wantsLibrary messages then Intent.libraryRequest
  else if wantsHelp messages then Intent.helpRequest
  else if wantsTalkOnly messages then Intent.declineOrTalkOnly
  else if (wantsMeditation messages).want then Intent.startPractice
  else Intent.unclassified

-- ---------------- chat_v3 (src/unnamed/part_000) quickIntent ----------------

/-- The action quickIntent can select; declineNull is its `{ name: null }`. -/
inductive QuickIntent where
  | meditation (language : String)
  | declineNull
  | libraryQ
  | helpQ
  | crisisQ
deriving DecidableEq

/-- chat_v3 start list (part_000 line 132). -/
def startV3 : List String :=
  ["calm breath","calm_breath","play","listen","start","begin","audio","track","meditation","meditate","breathe","breathing","reproduce","escuchar","iniciar","empezar","pista","meditación","meditacion","respiración","respiracion"]

/-- chat_v3 decline list (part_000 line 139). -/
def declineV3 : List String :=
  ["just talk","i want to talk","can we talk","no meditation","not now","later","skip","stop","cancel","solo hablar","sin meditación","sin meditacion","no ahora","más tarde","mas tarde","omitir","detener","pausa","no gracias","no quiero"]

/-- chat_v3 library list (part_000 line 143). -/
def libraryV3 : List String :=
  ["library","catalog","list","what do you have","what meditations","qué tienes","biblioteca","lista"]

/-- chat_v3 help list (part_000 line 146). -/
def helpV3 : List String :=
  ["help","how to","ayuda","como uso","¿cómo uso?","instructions"]

/-- chat_v3 crisis list (part_000 line 150): the EN and ES crisis keywords in
one list, tested only after the start, decline, library and help lists. -/
def crisisV3 : List String :=
  ["kill myself","suicide","want to die","hurt myself","harm myself","overdose","self harm","self-harm","end my life","suicidio","matarme","quiero morir","hacerme daño","dañarme","autolesion","autolesión","sobredosis","quitarme la vida"]

/-- chat_v3 quickIntent (part_000 lines 122-154): deterministic pre-filter
run before the model. Note the source order: language-only, start phrases,
declines, library, help, and crisis last. -/
def quickIntent (messages : List Msg) : Option QuickIntent :=
  match lastUserMsg messages with
  | none => none
  | some last =>
    let t := norm last.content
    if (["english","inglés","ingles","en"] : List String).contains t then
      some (QuickIntent.meditation "en")
    else if (["spanish","español","espanol","es"] : List String).contains t then
      some (QuickIntent.meditation "es")
    else if includesAny t startV3 then
      let lang :=
        if jsIncludes t "español" || jsIncludes t "espanol" || jsIncludes t " meditación" || jsIncludes t " respiración" then "es"
        else if jsIncludes t "english" then "en" else "en"
      some (QuickIntent.meditation lang)
    else if includesAny t declineV3 then some QuickIntent.declineNull
    else if includesAny t libraryV3 then some QuickIntent.libraryQ
    else if includesAny t helpV3 then some QuickIntent.helpQ
    else if includesAny t crisisV3 then some QuickIntent.crisisQ
    else none

/-- chat_v3 handler steps 0 (part_000 lines 171-191): the response produced
from a quickIntent hit; none when quickIntent is null or declineNull, in which
case the handler continues into the model-backed conversation (out of the
deterministic scope). The get_meditation arm (lines 173-181) repeats the
catalog lookup and envelope of sendMeditation verbatim. -/
def chatV3QuickResponse (messages : List Msg) : Option Envelope :=
  match quickIntent messages with
  | some (QuickIntent.meditation lang) =>
      let lib := match MEDITATIONS lang with
        | some l => l
        | none => { calm_breath := some calmBreathEn }
      let med := match lib.calm_breath with
        | some m => m
        | none => calmBreathEn
      let intro := if lang = "es" then "Aquí tienes tu práctica de Respiración Calma." else "Here is your Calm Breath practice."
      some { message := intro
             tool := some { name := "get_meditation"
                            result := { title := med.title
                                        language := lang
                                        duration := med.duration
                                        audioUrl := med.audioUrl
                                        script := med.script } } }
  | some QuickIntent.libraryQ =>
      some { message := "Current library: Calm Breath (3 min) — English & Spanish. More meditations are coming soon. / Biblioteca actual: Respiración Calma (3 min) — Español e Inglés. Pronto añadiremos más.", tool := none }
  | some QuickIntent.helpQ =>
      some { message := "You can say “english” or “español”, “play the meditation”, “show library”, or just talk to me. / Puedes decir “english” o “español”, “reproduce la meditación”, “lista de meditaciones”, o simplemente háblame.", tool := none }
  | some QuickIntent.crisisQ =>
      some { message := "I’m really sorry you’re going through this. In the U.S., call or text 988 (Suicide & Crisis Lifeline), or call 911 if this is an emergency. / Siento que estés pasando por esto. En EE. UU., llama o envía un texto al 988, o llama al 911 si es una emergencia.", tool := none }
  | some QuickIntent.declineNull => none
  | none => none

-- ---------------- part_001 (early api/chat.js revision) method gate ----------------

/-- The method gate of the early api/chat.js revision in src/unnamed/part_001
(lines 126-127): OPTIONS gets an empty 200, but any other non-POST method gets
`ok(res, ...)`, an HTTP 200, not a 405. none means the method is POST and the
handler continues into its model-backed flow. -/
def chatLegacyMethodReply (method : String) : Option HttpOut :=
  if method = "OPTIONS" then some (HttpOut.empty 200)
  else if method ≠ "POST" then
    some (HttpOut.json 200 { message := "Use POST to chat. / Usa POST para chatear.", tool := none })
  else none

-- ---------------- helper lemmas ----------------

/-- sendMeditation always attaches a tool payload, whatever the language. -/
theorem sendMeditation_tool_isSome (lang : String) :
    ((sendMeditation lang).tool).isSome = true := rfl

/-- The tool payload sendMeditation attaches is always named get_meditation. -/
theorem sendMeditation_toolName (lang : String) :
    (sendMeditation lang).tool.map ToolPayload.name = some "get_meditation" := rfl

/-- Appending a user turn makes it the turn lastUserMsg finds. -/
theorem lastUserMsg_append (prior : List Msg) (c : String) :
    lastUserMsg (prior ++ [⟨"user", c⟩]) = some ⟨"user", c⟩ := by
  unfold lastUserMsg
  rw [List.reverse_append]
  rfl

-- ---------------- claim theorems ----------------

/-- C1: on the message that carries both a crisis keyword and a start keyword,
the api/chat.js handler does classify Crisis first and answers with the
hotline text and no tool; but the chat_v3 quickIntent pre-filter tests the
start list before its crisis list, so the same request gets a get_meditation
tool payload from chat_v3 — the crisis check is not evaluated before every
other intent rule there. -/
theorem C1_crisis_priority_bug :
    isCrisis [⟨"user", "I want to start a meditation but I want to kill myself"⟩] = true
  ∧ chatRespond [⟨"user", "I want to start a meditation but I want to kill myself"⟩]
      = { message := crisisReply "en", tool := none }
  ∧ quickIntent [⟨"user", "I want to start a meditation but I want to kill myself"⟩]
      = some (QuickIntent.meditation "en")
  ∧ (chatV3QuickResponse [⟨"user", "I want to start a meditation but I want to kill myself"⟩]).map
      (fun e => e.tool.isSome) = some true := by
  refine ⟨by decide, by decide, by decide, by decide⟩

/-- C2 counterexample: for the single-turn input with the last user message
"can you play the meditation in spanish", the handler message is not the
Spanish envelope intro the claim requires, and the tool language is en,
not es. -/
theorem C2_counterexample :
    ¬ ((chatRespond [⟨"user", "can you play the meditation in spanish"⟩]).message
        = "Aquí tienes tu práctica de Respiración Calma.")
  ∧ ¬ ((chatRespond [⟨"user", "can you play the meditation in spanish"⟩]).tool.map
        (fun tp => tp.result.language) = some "es") := by
  refine ⟨by decide, by decide⟩

/-- C2 amended: that input classifies as StartPractice via the start keyword
play, but inferLanguage knows no keyword "spanish", so the handler returns the
English envelope — English intro, English catalog entry, language en. The
chat_v3 quickIntent resolves it to en as well. -/
theorem C2_amended :
    chatRespond [⟨"user", "can you play the meditation in spanish"⟩]
      = { message := "Here is your Calm Breath practice."
          tool := some { name := "get_meditation"
                         result := { title := "Calm Breath • 3 min"
                                     language := "en"
                                     duration := 3
                                     audioUrl := AUDIO_EN
                                     script := calmBreathEn.script } } }
  ∧ quickIntent [⟨"user", "can you play the meditation in spanish"⟩]
      = some (QuickIntent.meditation "en") := by
  refine ⟨by decide, by decide⟩

/-- C3: the input "not now" classifies as DeclineOrTalkOnly in the chat_v2
second revision; the response carries no tool field and its text is the
plain supportive variant, which mentions no practice and renews no
invitation to start one. -/
theorem C3_decline_no_invite :
    classifyV2 [⟨"user", "not now"⟩] = Intent.declineOrTalkOnly
  ∧ chatV2Respond [⟨"user", "not now"⟩]
      = { message := "I hear you. That sounds like a lot. Want to tell me a bit more?", tool := none }
  ∧ includesAny (norm "I hear you. That sounds like a lot. Want to tell me a bit more?")
      ["calm breath","respiración","respiracion","meditation","meditación","meditacion","práctica","practice"] = false := by
  refine ⟨by decide, by decide, by decide⟩

/-- C4 counterexample: with no prior history at all, the bare affirmation
"yes" already classifies as StartPractice and receives a tool payload, not
the Unclassified fall-through the claim predicts. -/
theorem C4_counterexample :
    wantsMeditation [⟨"user", "yes"⟩] = { want := true, lang := none }
  ∧ classifyChat [⟨"user", "yes"⟩] = Intent.startPractice
  ∧ ¬ (classifyChat [⟨"user", "yes"⟩] = Intent.unclassified)
  ∧ ((chatRespond [⟨"user", "yes"⟩]).tool).isSome = true := by
  refine ⟨by decide, by decide, by decide, by decide⟩

/-- C4 amended: a bare affirmation in the last user turn classifies as
StartPractice unconditionally — the affirmation branch fires before the code
ever consults the previous assistant turn, whatever the prior history, so the
invitation-gated branch is unreachable. -/
theorem C4_amended (prior : List Msg) :
    wantsMeditation (prior ++ [⟨"user", "yes"⟩]) = { want := true, lang := none }
  ∧ ((chatRespond (prior ++ [⟨"user", "yes"⟩])).tool).isSome = true := by
  have hu := lastUserMsg_append prior "yes"
  have hw : wantsMeditation (prior ++ [⟨"user", "yes"⟩]) = { want := true, lang := none } := by
    unfold wantsMeditation
    rw [hu]
    rfl
  have hcrisis : isCrisis (prior ++ [⟨"user", "yes"⟩]) = false := by
    unfold isCrisis
    rw [hu]
    rfl
  have hlib : wantsLibrary (prior ++ [⟨"user", "yes"⟩]) = false := by
    unfold wantsLibrary
    rw [hu]
    rfl
  have hhelp : wantsHelp (prior ++ [⟨"user", "yes"⟩]) = false := by
    unfold wantsHelp
    rw [hu]
    rfl
  refine ⟨hw, ?_⟩
  simp [chatRespond, hcrisis, hlib, hhelp, hw, sendMeditation_tool_isSome]

/-- C4 amended witness: the empty prior history instance. -/
theorem C4_amended_witness :
    wantsMeditation ([] ++ [⟨"user", "yes"⟩]) = { want := true, lang := none }
  ∧ ((chatRespond ([] ++ [⟨"user", "yes"⟩])).tool).isSome = true :=
  C4_amended []

/-- C5: with no prior history, the exact message "english" classifies as
StartPractice with language en and "español" as StartPractice with language
es, and the handler serves the practice in that language, although neither
message contains a start verb. -/
theorem C5_language_only :
    wantsMeditation [⟨"user", "english"⟩] = { want := true, lang := some "en" }
  ∧ wantsMeditation [⟨"user", "español"⟩] = { want := true, lang := some "es" }
  ∧ classifyChat [⟨"user", "english"⟩] = Intent.startPractice
  ∧ classifyChat [⟨"user", "español"⟩] = Intent.startPractice
  ∧ (chatRespond [⟨"user", "english"⟩]).tool.map (fun tp => tp.result.language) = some "en"
  ∧ (chatRespond [⟨"user", "español"⟩]).tool.map (fun tp => tp.result.language) = some "es" := by
  refine ⟨by decide, by decide, by decide, by decide, by decide, by decide⟩

/-- C6: api/chat.js answers GET and DELETE with an explicit 405 and OPTIONS
with an empty 200, but the earlier revision kept in part_001 answers non-POST,
non-OPTIONS methods with a generic HTTP 200 carrying the same text, violating
the method-not-allowed requirement. -/
theorem C6_method_not_allowed :
    chatHandler "GET" { messages := none }
      = HttpOut.json 405 { message := "Use POST to chat. / Usa POST para chatear.", tool := none }
  ∧ chatHandler "DELETE" { messages := none }
      = HttpOut.json 405 { message := "Use POST to chat. / Usa POST para chatear.", tool := none }
  ∧ chatHandler "OPTIONS" { messages := none } = HttpOut.empty 200
  ∧ chatLegacyMethodReply "GET"
      = some (HttpOut.json 200 { message := "Use POST to chat. / Usa POST para chatear.", tool := none })
  ∧ chatLegacyMethodReply "OPTIONS" = some (HttpOut.empty 200) := by
  refine ⟨by decide, by decide, by decide, by decide, by decide⟩

/-- C7: a POST whose messages field is missing (or not an array) and a POST
with an empty messages list are both treated as the empty history: HTTP 200,
the Unclassified default supportive reply, and no tool field. -/
theorem C7_empty_messages :
    chatHandler "POST" { messages := none }
      = HttpOut.json 200 { message := supportiveReply "en", tool := none }
  ∧ chatHandler "POST" { messages := some [] }
      = HttpOut.json 200 { message := supportiveReply "en", tool := none }
  ∧ classifyChat [] = Intent.unclassified := by
  refine ⟨by decide, by decide, by decide⟩

/-- C8: on every history, the deterministic handlers attach a tool field
exactly when the selected intent is StartPractice, and that tool is always
named get_meditation; the crisis, library, help, decline and unclassified
branches never carry one. Stated for the chat.js handler and for the chat_v2
second-revision handler, which adds the decline branch. -/
theorem C8_tool_iff_startPractice (messages : List Msg) :
    ((chatRespond messages).tool.map ToolPayload.name
      = if classifyChat messages = Intent.startPractice then some "get_meditation" else none)
  ∧ ((chatV2Respond messages).tool.map ToolPayload.name
      = if classifyV2 messages = Intent.startPractice then some "get_meditation" else none) := by
  constructor
  · by_cases h1 : isCrisis messages = true
    · simp [chatRespond, classifyChat, h1]
    · by_cases h2 : wantsLibrary messages = true
      · simp [chatRespond, classifyChat, h1, h2]
      · by_cases h3 : wantsHelp messages = true
        · simp [chatRespond, classifyChat, h1, h2, h3]
        · by_cases h4 : (wantsMeditation messages).want = true
          · simp [chatRespond, classifyChat, h1, h2, h3, h4, sendMeditation_toolName]
          · simp [chatRespond, classifyChat, h1, h2, h3, h4]
  · by_cases h1 : isCrisis messages = true
    · simp [chatV2Respond, classifyV2, h1]
    · by_cases h2 : wantsLibrary messages = true
      · simp [chatV2Respond, classifyV2, h1, h2]
      · by_cases h3 : wantsHelp messages = true
        · simp [chatV2Respond, classifyV2, h1, h2, h3]
        · by_cases h4 : wantsTalkOnly messages = true
          · simp [chatV2Respond, classifyV2, h1, h2, h3, h4]
          · by_cases h5 : (wantsMeditation messages).want = true
            · simp [chatV2Respond, classifyV2, h1, h2, h3, h4, h5, sendMeditation_toolName]
            · simp [chatV2Respond, classifyV2, h1, h2, h3, h4, h5]

/-- C8 witness: the invariant at the concrete history with last user turn
"play". -/
theorem C8_tool_iff_startPractice_witness :
    ((chatRespond [⟨"user", "play"⟩]).tool.map ToolPayload.name
      = if classifyChat [⟨"user", "play"⟩] = Intent.startPractice then some "get_meditation" else none)
  ∧ ((chatV2Respond [⟨"user", "play"⟩]).tool.map ToolPayload.name
      = if classifyV2 [⟨"user", "play"⟩] = Intent.startPractice then some "get_meditation" else none) :=
  C8_tool_iff_startPractice [⟨"user", "play"⟩]

/-- C9: for any language key other than en and es, the catalog lookup misses
and sendMeditation degrades to the English calm_breath entry: the envelope
still carries a full tool.result whose title, duration, audio URL and script
are the English ones, and no error is surfaced. -/
theorem C9_catalog_fallback (lang : String) (h1 : lang ≠ "en") (h2 : lang ≠ "es") :
    sendMeditation lang =
      { message := "Here is your Calm Breath practice."
        tool := some { name := "get_meditation"
                       result := { title := calmBreathEn.title
                                   language := lang
                                   duration := calmBreathEn.duration
                                   audioUrl := calmBreathEn.audioUrl
                                   script := calmBreathEn.script } } } := by
  simp [sendMeditation, MEDITATIONS, h1, h2]

/-- C9 witness: the unsupported language code fr. -/
theorem C9_catalog_fallback_witness :
    sendMeditation "fr" =
      { message := "Here is your Calm Breath practice."
        tool := some { name := "get_meditation"
                       result := { title := calmBreathEn.title
                                   language := "fr"
                                   duration := calmBreathEn.duration
                                   audioUrl := calmBreathEn.audioUrl
                                   script := calmBreathEn.script } } } :=
  C9_catalog_fallback "fr" (by decide) (by decide)

/-- C10: because affirmation matching is substring containment over a list
containing the two-letter word si, any history whose last user message
contains si anywhere after normalization, and which trips none of the crisis,
library or help keyword checks, classifies as StartPractice and receives a
meditation tool payload instead of the default supportive reply. -/
theorem C10_si_substring (messages : List Msg) (u : Msg)
    (hu : lastUserMsg messages = some u)
    (hsi : jsIncludes (norm u.content) "si" = true)
    (hc : isCrisis messages = false)
    (hl : wantsLibrary messages = false)
    (hh : wantsHelp messages = false) :
    classifyChat messages = Intent.startPractice
  ∧ ((chatRespond messages).tool).isSome = true := by
  have hyes : includesAny (norm u.content) (YES_EN ++ YES_ES) = true := by
    have hmem : "si" ∈ YES_EN ++ YES_ES := by decide
    unfold includesAny
    rw [List.any_eq_true]
    exact ⟨"si", hmem, hsi⟩
  have hw : (wantsMeditation messages).want = true := by
    unfold wantsMeditation
    rw [hu]
    simp [hyes]
    split_ifs <;> rfl
  constructor
  · simp [classifyChat, hc, hl, hh, hw]
  · simp [chatRespond, hc, hl, hh, hw, sendMeditation_tool_isSome]

/-- C10 witness: the message "i feel sick", whose word sick contains si. -/
theorem C10_si_substring_witness :
    classifyChat [⟨"user", "i feel sick"⟩] = Intent.startPractice
  ∧ ((chatRespond [⟨"user", "i feel sick"⟩]).tool).isSome = true :=
  C10_si_substring [⟨"user", "i feel sick"⟩] ⟨"user", "i feel sick"⟩ rfl rfl rfl rfl rfl

end CalmaLink
